import Mathlib

/-!
Verification development for the `ReceiptOCRAzure` service
(`src/ReceiptOCRAzure.py`).

The Python program is shallowly embedded: the Azure Document Intelligence
response objects become plain Lean structures, Python `float` values are
modelled as rationals, Python dictionaries become association lists, and
Python control flow (including the places where the source can raise an
unhandled `TypeError` / `AttributeError` / `UnboundLocalError`) is made
explicit with `Except` and a dedicated `Response` type.
-/

namespace ReceiptOCR

/-- Kinds of unhandled Python exceptions the endpoint body can raise
(escaping FastAPI as an HTTP 500, not as an `HTTPException`). -/
inductive PyError where
  | typeError
  | attributeError
  | unboundLocalError
deriving DecidableEq

/-- Model of `azure...models.CurrencyValue` as used by the source:
only `amount` and `currency_code` are read, both defensively. -/
structure ValueCurrency where
  amount : Option ℚ := none
  currency_code : Option String := none
deriving DecidableEq

/-- Calendar date carried by a `value_date` attribute (`datetime.date`). -/
structure Date where
  year : ℕ
  month : ℕ
  day : ℕ
deriving DecidableEq

/-- Clock time carried by a `value_time` attribute (`datetime.time`). -/
structure Time where
  hour : ℕ
  minute : ℕ
  second : ℕ
deriving DecidableEq

/-- Model of the `DocumentField`s stored inside a tax detail's
`value_object` dictionary: the source reads only `value_number`
(for `"Rate"`) and `value_currency` (for `"NetAmount"` / `"Amount"`). -/
structure InnerField where
  value_number : Option ℚ := none
  value_currency : Option ValueCurrency := none
deriving DecidableEq

/-- One element of `TaxDetails.value_array`: the source only reads its
`value_object` (a dictionary of `InnerField`s), which may be unset. -/
structure TaxDetailField where
  value_object : Option (List (String × InnerField)) := none
deriving DecidableEq

/-- Model of `azure...models.DocumentField` restricted to the attributes
the source reads on top-level receipt fields. -/
structure DocumentField where
  confidence : Option ℚ := none
  value_string : Option String := none
  value_date : Option Date := none
  value_time : Option Time := none
  value_country_region : Option String := none
  value_currency : Option ValueCurrency := none
  value_array : List TaxDetailField := []
deriving DecidableEq

/-- One analyzed document: the source only uses `receipt.fields`,
a Python dict from field name to `DocumentField`. -/
structure Receipt where
  fields : List (String × DocumentField) := []
deriving DecidableEq

/-- Python `dict.get`: first binding of the key, else `None`. -/
def dictGet {α : Type} (d : List (String × α)) (k : String) : Option α :=
  (d.find? (fun p => p.1 == k)).map Prod.snd

/-- Source `safe_get` (lines 21-22):
`receipt.fields.get(field_name) if field_name in receipt.fields else None`. -/
def safe_get (receipt : Receipt) (field_name : String) : Option DocumentField :=
  dictGet receipt.fields field_name

/-- Python `round(x)` for a rational `x`: round half to even (banker's
rounding), which is what Python's built-in `round` performs. -/
def roundHalfEven (x : ℚ) : ℤ :=
  let f := ⌊x⌋
  let r := x - (f : ℚ)
  if r < 1/2 then f
  else if 1/2 < r then f + 1
  else if f % 2 = 0 then f else f + 1

/-- Python `round(x, n)` for a rational `x` and `n` decimal digits. -/
def pyRound (x : ℚ) (n : ℕ) : ℚ :=
  (roundHalfEven (x * 10 ^ n) : ℚ) / 10 ^ n

/-- Source `compute_average_confidence` (lines 98-111). -/
def compute_average_confidence (receipt : Receipt) : ℚ :=
  if receipt.fields = [] then 0
  else
    let confidences := receipt.fields.filterMap (fun p => p.2.confidence)
    if confidences = [] then 0
    else pyRound (confidences.sum / (confidences.length : ℚ)) 4

/-- Entry appended to `tax_list` by `_format_tax_details` (lines 60-65). -/
structure TaxEntry where
  Rate : ℚ
  Netto : Option ℚ
  TaxAmount : Option ℚ
  Brutto : Option ℚ
deriving DecidableEq

/-- Rate read from a tax detail's value object (lines 35-36):
`getattr(tax_obj.get("Rate"), "value_number", None)` done null-safely. -/
def rateOf (tax_obj : List (String × InnerField)) : Option ℚ :=
  (dictGet tax_obj "Rate").bind InnerField.value_number

/-- Net amount read from a tax detail's value object (lines 38-40). -/
def netAmountOf (tax_obj : List (String × InnerField)) : Option ℚ :=
  (((dictGet tax_obj "NetAmount").bind InnerField.value_currency).bind ValueCurrency.amount)

/-- Tax amount reported by the API for a tax detail (lines 42-45). -/
def apiTaxAmountOf (tax_obj : List (String × InnerField)) : Option ℚ :=
  (((dictGet tax_obj "Amount").bind InnerField.value_currency).bind ValueCurrency.amount)

/-- Body of the `for` loop of `_format_tax_details` for one tax detail
whose `value_object` is present (lines 35-65). -/
def processTaxObject (tax_obj : List (String × InnerField)) : TaxEntry :=
  let rate := rateOf tax_obj
  let net_amount := netAmountOf tax_obj
  let tax_amount := apiTaxAmountOf tax_obj
  match rate with
  | some r =>
      let tax_amount' := match tax_amount with
        | some t => some t
        | none => net_amount.map (fun n => n * r)
      let brutto_amount := match net_amount, tax_amount' with
        | some n, some t => some (pyRound (n + t) 2)
        | _, _ => none
      { Rate := r * 100, Netto := net_amount, TaxAmount := tax_amount', Brutto := brutto_amount }
  | none =>
      { Rate := 0, Netto := net_amount, TaxAmount := tax_amount, Brutto := net_amount }

/-- The `for` loop of `_format_tax_details` (lines 30-65): entries whose
`value_object` is unset are skipped; the first component is the final value
of the Python local variable `rate` (`none` = the variable was never
assigned), the second is the accumulated `tax_list`. -/
def taxDetailsLoop : List TaxDetailField → Option ℚ → List TaxEntry → Option ℚ × List TaxEntry
  | [], lastRate, acc => (lastRate, acc)
  | item :: rest, lastRate, acc =>
    match item.value_object with
    | none => taxDetailsLoop rest lastRate acc
    | some obj =>
      let e := processTaxObject obj
      taxDetailsLoop rest (some e.Rate) (acc ++ [e])

/-- Source `_format_tax_details` (lines 25-69).  Returns `ok none` for the
Python `return None` (no `TaxDetails` field), `ok (some (country, list))`
for the tuple return, and `error unboundLocalError` when the final
`rate not in (0.19, 0.07)` test reads the loop variable `rate` although no
tax detail was processed. -/
def _format_tax_details (receipt : Receipt) (country_code : Option String) :
    Except PyError (Option (Option String × List TaxEntry)) :=
  match safe_get receipt "TaxDetails" with
  | none => Except.ok none
  | some tax_details =>
    let p := taxDetailsLoop tax_details.value_array none []
    if country_code = some "DE" then
      match p.1 with
      | none => Except.error PyError.unboundLocalError
      | some r =>
        if r ≠ (0.19 : ℚ) ∧ r ≠ (0.07 : ℚ) then Except.ok (some (some "AT", p.2))
        else Except.ok (some (country_code, p.2))
    else Except.ok (some (country_code, p.2))

/-- Source `_format_type` (lines 72-84): returns the receipt type's
`value_string` when the field is present, else `None`. -/
def _format_type (receipt_type : Option DocumentField) : Option String :=
  receipt_type.bind DocumentField.value_string

/-- Zero-padded decimal rendering of a natural number, as produced by the
`%d` / `%m` / `%Y` / `%H` / `%M` / `%S` directives of `strftime`. -/
def padZero (width : ℕ) (n : ℕ) : String :=
  let s := Nat.repr n
  String.mk (List.replicate (width - s.length) '0') ++ s

/-- Python `datetime.date.strftime("%d-%m-%Y")` (line 216). -/
def strftimeDate (d : Date) : String :=
  padZero 2 d.day ++ "-" ++ padZero 2 d.month ++ "-" ++ padZero 4 d.year

/-- Python `datetime.time.strftime("%H:%M:%S")` (line 217). -/
def strftimeTime (t : Time) : String :=
  padZero 2 t.hour ++ ":" ++ padZero 2 t.minute ++ ":" ++ padZero 2 t.second

/-- Python format specifier `:.2f` applied to a rational. -/
def formatFixed2 (q : ℚ) : String :=
  let c := roundHalfEven (q * 100)
  let sign := if c < 0 then "-" else ""
  let a := c.natAbs
  sign ++ Nat.repr (a / 100) ++ "." ++ padZero 2 (a % 100)

/-- A `{"code": ..., "message": ...}` dictionary, used both for validation
errors and for warnings. -/
structure ErrorItem where
  code : String
  message : String
deriving DecidableEq

/-- Threshold from line 115: `CONFIDENCE_THRESHOLD = 0.5`. -/
def CONFIDENCE_THRESHOLD : ℚ := 0.5

/-- Error dict of lines 228-229.  The source string has no `f` prefix, so
the placeholder stays literal in the message. -/
def lowAvgConfidenceError : ErrorItem :=
  { code := "ERR_low_avg_confidence",
    message := "Average confidence is too low (\x7baverage_confidence:.2f\x7d < 0.5)." }

/-- Error dict of line 231. -/
def noBruttoError : ErrorItem :=
  { code := "ERR_no_brutto", message := "BruttoTotal is missing." }

/-- Error dict of lines 233-234 (the f-string interpolates
`average_confidence`, not the brutto confidence). -/
def lowBruttoConfidenceError (average_confidence : ℚ) : ErrorItem :=
  { code := "ERR_low_brutto_confidence",
    message := "Brutto confidence is too low (" ++ formatFixed2 average_confidence ++ " < 0.5)." }

/-- Error dict of line 237. -/
def noDateError : ErrorItem :=
  { code := "ERR_no_date", message := "Date is missing." }

/-- Error dict of lines 239-240. -/
def lowDateConfidenceError (date_confidence : ℚ) : ErrorItem :=
  { code := "ERR_low_date_confidence",
    message := "Date confidence is too low (" ++ formatFixed2 date_confidence ++ " < 0.5)." }

/-- Warning dict of line 197. -/
def warnDateItem : ErrorItem :=
  { code := "WARN_Date", message := "Using DepartureDate as TransactionDate." }

/-- The `output` dictionary of lines 212-225.  The optional `Warnings` key
is prepended only when the warnings list is non-empty (`none` = key absent).
`Type'` stands for the `"Type"` key (a Lean keyword). -/
structure Output where
  Warnings : Option (List ErrorItem)
  Filename : Option String
  Confidence : ℚ
  Country : Option String
  Date : Option String
  Time : Option String
  Type' : Option String
  BruttoTotal : Option ℚ
  Currency : Option String
  Tip : Option ℚ
  Taxes : List TaxEntry
deriving DecidableEq

/-- Shape of the `detail` passed to `HTTPException`: either the simple
`{"code", "message"}` dictionaries of the upload checks, or the
`{"message", "errors", "partial_output"}` dictionary of line 245-249
(`outputPartial` models the `partial_output` key). -/
inductive Detail where
  | simple (code : String) (message : String)
  | validation (message : String) (errors : List ErrorItem) (outputPartial : Output)
deriving DecidableEq

/-- Observable outcome of a `process_image` call: a 200 `JSONResponse`,
the implicit `return None` (FastAPI then answers 200 with a null body),
a raised `HTTPException`, or an unhandled Python exception. -/
inductive Response where
  | jsonOutput (output : Output)
  | noneResponse
  | httpError (status : ℕ) (detail : Detail)
  | pythonCrash (e : PyError)
deriving DecidableEq

/-- Lines 187-198: TransactionDate lookup with the DepartureDate fallback.
Returns the `warnings` list and the final `date_value`. -/
def dateWarningsAndValue (receipt : Receipt) : List ErrorItem × Option Date :=
  let date_obj := dictGet receipt.fields "TransactionDate"
  match date_obj.bind DocumentField.value_date with
  | some d => ([], some d)
  | none =>
    let departure_date_obj := dictGet receipt.fields "DepartureDate"
    let departure_date_value := departure_date_obj.bind DocumentField.value_date
    match departure_date_obj, departure_date_value with
    | some _, some dv => ([warnDateItem], some dv)
    | _, _ => ([], none)

/-- The `warnings` list after lines 184-198. -/
def warningsOf (receipt : Receipt) : List ErrorItem :=
  (dateWarningsAndValue receipt).1

/-- The `date_value` local after lines 189-198. -/
def date_value (receipt : Receipt) : Option Date :=
  (dateWarningsAndValue receipt).2

/-- Line 200: `date_obj.confidence if date_obj else None` (read from the
TransactionDate field, not from the fallback). -/
def date_confidence (receipt : Receipt) : Option ℚ :=
  (dictGet receipt.fields "TransactionDate").bind DocumentField.confidence

/-- Line 201: `getattr(time_obj, "value_time", None) if time_obj else None`. -/
def time_value (receipt : Receipt) : Option Time :=
  (dictGet receipt.fields "TransactionTime").bind DocumentField.value_time

/-- Line 202: the CountryRegion field's `value_country_region`. -/
def country_value0 (receipt : Receipt) : Option String :=
  (dictGet receipt.fields "CountryRegion").bind DocumentField.value_country_region

/-- Line 206: the Total field's `value_currency`. -/
def total_value_currency (receipt : Receipt) : Option ValueCurrency :=
  (dictGet receipt.fields "Total").bind DocumentField.value_currency

/-- Line 207: `getattr(total_value_currency, "amount", None)`. -/
def total_amount (receipt : Receipt) : Option ℚ :=
  (total_value_currency receipt).bind ValueCurrency.amount

/-- Line 208: the total's `currency_code`. -/
def total_currency (receipt : Receipt) : Option String :=
  (total_value_currency receipt).bind ValueCurrency.currency_code

/-- Line 209: `total_obj.confidence if total_obj else None`. -/
def total_confidence (receipt : Receipt) : Option ℚ :=
  (dictGet receipt.fields "Total").bind DocumentField.confidence

/-- Line 221:
`safe_get(receipt, "Tip").value_currency.amount if safe_get(receipt, "Tip") else None`.
When Tip is present but its `value_currency` is unset, reading `.amount` on
`None` raises an `AttributeError`. -/
def tipAmount (receipt : Receipt) : Except PyError (Option ℚ) :=
  match safe_get receipt "Tip" with
  | none => Except.ok none
  | some f =>
    match f.value_currency with
    | none => Except.error PyError.attributeError
    | some vc => Except.ok vc.amount

/-- The `output` dictionary built on lines 212-225. -/
def buildOutput (filename : String) (receipt : Receipt) (country_value : Option String)
    (tax_details : List TaxEntry) (tip : Option ℚ) : Output :=
  { Warnings := if warningsOf receipt = [] then none else some (warningsOf receipt),
    Filename := some filename,
    Confidence := compute_average_confidence receipt,
    Country := country_value,
    Date := (date_value receipt).map strftimeDate,
    Time := (time_value receipt).map strftimeTime,
    Type' := _format_type (dictGet receipt.fields "ReceiptType"),
    BruttoTotal := total_amount receipt,
    Currency := total_currency receipt,
    Tip := tip,
    Taxes := tax_details }

/-- The `validation_errors` list as finally raised, lines 227-240.
`tc` is the (non-`None`) total confidence reaching the line 232 comparison.
Note line 233 reassigns (`=`, not `append`), discarding earlier errors, and
line 238 tests Python truthiness of `date_confidence`, so a confidence of
exactly `0.0` is skipped. -/
def validationErrors (average_confidence : ℚ) (total_amt : Option ℚ) (tc : ℚ)
    (date_val : Option Date) (date_conf : Option ℚ) : List ErrorItem :=
  let ve1 := if average_confidence < CONFIDENCE_THRESHOLD then [lowAvgConfidenceError] else []
  let ve2 := if total_amt = none then ve1 ++ [noBruttoError] else ve1
  let ve3 := if tc < CONFIDENCE_THRESHOLD then [lowBruttoConfidenceError average_confidence] else ve2
  let ve4 := if date_val = none then ve3 ++ [noDateError] else ve3
  match date_conf with
  | some dc => if dc ≠ 0 ∧ dc < CONFIDENCE_THRESHOLD then ve4 ++ [lowDateConfidenceError dc] else ve4
  | none => ve4

/-- Body of the `for` loop for one receipt with a non-empty fields dict,
lines 183-252.  Crash points of the source are made explicit:
line 203 unpacks the result of `_format_tax_details`, which is `None`
whenever the receipt has no TaxDetails field (`TypeError`); line 221 can
raise an `AttributeError` (see `tipAmount`); line 232 compares
`total_confidence < CONFIDENCE_THRESHOLD`, a `TypeError` when the Total
field or its confidence is absent (`None < float`).  Lines 227-231 execute
before that comparison but their effect is discarded by the crash. -/
def processReceipt (filename : String) (receipt : Receipt) : Response :=
  match _format_tax_details receipt (country_value0 receipt) with
  | Except.error e => Response.pythonCrash e
  | Except.ok none => Response.pythonCrash PyError.typeError
  | Except.ok (some (country_value, tax_details)) =>
    match tipAmount receipt with
    | Except.error e => Response.pythonCrash e
    | Except.ok tip =>
      let output := buildOutput filename receipt country_value tax_details tip
      match total_confidence receipt with
      | none => Response.pythonCrash PyError.typeError
      | some tc =>
        let ve := validationErrors (compute_average_confidence receipt) (total_amount receipt)
          tc (date_value receipt) (date_confidence receipt)
        if ve = [] then Response.jsonOutput output
        else Response.httpError 400
          (Detail.validation ("Validation failed for receipt " ++ filename ++ ".") ve output)

/-- Lines 178-252: iterate over `receipts.documents`; a receipt with an
empty (falsy) fields dict is skipped; the first receipt with a non-empty
fields dict returns or raises; falling off the loop returns `None`. -/
def processDocuments (filename : String) : List Receipt → Response
  | [] => Response.noneResponse
  | receipt :: rest =>
    if receipt.fields = [] then processDocuments filename rest
    else processReceipt filename receipt

/-- Model of the FastAPI `UploadFile` together with the outcome of the
external PIL image load: `load_error = none` means `Image.open/load`
succeeds, `some msg` the exception message when it fails.
`contents_empty` models `not contents` for the PDF branch. -/
structure UploadFileModel where
  filename : String
  content_type : String
  load_error : Option String := none
  contents_empty : Bool := false
deriving DecidableEq

/-- Source `process_image` (lines 146-252), parameterised by the document
list the Azure analysis returns (the analysis itself is the external cloud
call).  In the PDF branch the inner `HTTPException` (`ERR_empty_PDF`) is
caught by the enclosing `except Exception` and re-raised with code
`ERR_invalid_PDF` and `str(e)` as message. -/
def process_image (image_file : UploadFileModel) (documents : List Receipt) : Response :=
  if ¬(image_file.content_type.startsWith "image/"
       ∨ image_file.content_type.startsWith "application/pdf") then
    Response.httpError 400
      (Detail.simple "ERR_invalid_type" "Invalid file type. Please upload an image.")
  else if image_file.content_type.startsWith "image/" then
    match image_file.load_error with
    | some e => Response.httpError 400 (Detail.simple "ERR_invalid_image" ("Invalid image: " ++ e))
    | none => processDocuments image_file.filename documents
  else
    if image_file.contents_empty then
      Response.httpError 400 (Detail.simple "ERR_invalid_PDF" "400: Empty PDF file.")
    else processDocuments image_file.filename documents

/-- Output carried by a response: the success payload, or the
`partial_output` of a 400 validation detail. -/
def responseOutput : Response → Option Output
  | Response.jsonOutput o => some o
  | Response.httpError _ (Detail.validation _ _ o) => some o
  | _ => none

/-- Codes of the validation errors carried by a 400 validation response. -/
def validationErrorCodes : Response → List String
  | Response.httpError _ (Detail.validation _ errs _) => errs.map ErrorItem.code
  | _ => []

/-- Whether a response is a raised `HTTPException` with status 400. -/
def isHttp400 : Response → Bool
  | Response.httpError 400 _ => true
  | _ => false

/-! Concrete inputs used for evaluations, counterexamples and witnesses. -/

/-- A well-formed PNG upload (PIL load succeeds). -/
def pngUpload : UploadFileModel := { filename := "receipt.png", content_type := "image/png" }

/-- An upload whose content type is neither an image nor a PDF. -/
def textUpload : UploadFileModel := { filename := "notes.txt", content_type := "text/plain" }

/-- An image upload that PIL cannot load. -/
def badPngUpload : UploadFileModel :=
  { filename := "broken.png", content_type := "image/png",
    load_error := some "cannot identify image file" }

/-- Receipt with a TaxDetails field, and a Total whose confidence is 0.3
(below threshold): the line 233 reassignment discards earlier errors. -/
def rC1x : Receipt :=
  { fields := [("TaxDetails", { confidence := some 0.1 }),
               ("Total", { confidence := some 0.3,
                           value_currency := some { amount := some 5, currency_code := some "EUR" } })] }

/-- Receipt with low average confidence but Total confidence 0.6. -/
def rC1w : Receipt :=
  { fields := [("TaxDetails", { confidence := some 0.05 }),
               ("Total", { confidence := some 0.6,
                           value_currency := some { amount := some 5, currency_code := some "EUR" } })] }

/-- Receipt with only a DepartureDate field (no TaxDetails). -/
def rC2x : Receipt :=
  { fields := [("DepartureDate", { value_date := some { year := 2024, month := 5, day := 17 } })] }

/-- Receipt exercising the DepartureDate fallback on a crash-free path. -/
def rC2w1 : Receipt :=
  { fields := [("DepartureDate", { value_date := some { year := 2024, month := 5, day := 17 } }),
               ("TaxDetails", { confidence := some 0.9 }),
               ("Total", { confidence := some 0.9,
                           value_currency := some { amount := some 5, currency_code := some "EUR" } })] }

/-- Receipt with a TransactionDate value on a crash-free path. -/
def rC2w2 : Receipt :=
  { fields := [("TransactionDate", { value_date := some { year := 2024, month := 5, day := 17 },
                                     confidence := some 0.9 }),
               ("TaxDetails", { confidence := some 0.9 }),
               ("Total", { confidence := some 0.9,
                           value_currency := some { amount := some 5, currency_code := some "EUR" } })] }

/-- Tax detail value object with the German standard fractional rate 0.19. -/
def rC3TaxObj : List (String × InnerField) :=
  [("Rate", { value_number := some 0.19 }),
   ("NetAmount", { value_currency := some { amount := some 100 } }),
   ("Amount", { value_currency := some { amount := some 19 } })]

/-- Receipt whose TaxDetails array holds exactly `rC3TaxObj`. -/
def rC3 : Receipt :=
  { fields := [("TaxDetails", { value_array := [{ value_object := some rC3TaxObj }] })] }

/-- Tax detail value object with a rate and a net amount but no API tax
amount. -/
def objRate : List (String × InnerField) :=
  [("Rate", { value_number := some 0.2 }),
   ("NetAmount", { value_currency := some { amount := some 10 } })]

/-- Tax detail value object without a rate. -/
def objNoRate : List (String × InnerField) :=
  [("NetAmount", { value_currency := some { amount := some 7 } })]

/-- Receipt with TaxDetails but no Total field at all. -/
def rC5 : Receipt := { fields := [("TaxDetails", { confidence := some 0.9 })] }

/-- Receipt with a non-empty fields dict but no TaxDetails field. -/
def rC6 : Receipt := { fields := [("Vendor", { confidence := some 0.9 })] }

/-- Receipt with no fields at all (falsy fields dict). -/
def emptyFieldsReceipt : Receipt := { fields := [] }

/-- Receipt whose single field has no confidence. -/
def rC8b : Receipt := { fields := [("MerchantName", {})] }

/-- Receipt whose single field has confidence 0.5. -/
def rC8c : Receipt := { fields := [("MerchantName", { confidence := some 0.5 })] }

/-- Receipt with high average confidence but Total confidence 0.3. -/
def rC9 : Receipt :=
  { fields := [("TaxDetails", { confidence := some 0.9 }),
               ("Total", { confidence := some 0.3,
                           value_currency := some { amount := some 5, currency_code := some "EUR" } })] }

/-- Receipt with a non-empty fields dict used as a loop target. -/
def rC10 : Receipt := { fields := [("MerchantName", { confidence := some 0.9 })] }

/-! Helper lemmas shared by the claim theorems. -/

/-- A valid image upload proceeds to the analysis of the documents. -/
theorem process_image_image_ok (image_file : UploadFileModel) (documents : List Receipt)
    (h1 : image_file.content_type.startsWith "image/" = true)
    (h2 : image_file.load_error = none) :
    process_image image_file documents = processDocuments image_file.filename documents := by
  simp [process_image, h1, h2]

/-- Receipts with an empty fields dict are skipped; the first one with a
non-empty fields dict decides the whole loop. -/
theorem processDocuments_first (filename : String) (pre : List Receipt) (receipt : Receipt)
    (rest : List Receipt) (hpre : ∀ p ∈ pre, p.fields = []) (hr : receipt.fields ≠ []) :
    processDocuments filename (pre ++ receipt :: rest) = processReceipt filename receipt := by
  induction pre with
  | nil => simp [processDocuments, hr]
  | cons p ps ih =>
    have hp : p.fields = [] := hpre p (List.mem_cons_self p ps)
    simp only [List.cons_append, processDocuments, hp, if_pos]
    exact ih fun q hq => hpre q (List.mem_cons_of_mem p hq)

/-- A head receipt with a non-empty fields dict is the one processed. -/
theorem processDocuments_cons (filename : String) (receipt : Receipt) (rest : List Receipt)
    (hr : receipt.fields ≠ []) :
    processDocuments filename (receipt :: rest) = processReceipt filename receipt := by
  simp [processDocuments, hr]

/-- When every receipt has an empty fields dict the loop falls through and
the endpoint returns `None`. -/
theorem processDocuments_all_empty (filename : String) (documents : List Receipt)
    (h : ∀ r ∈ documents, r.fields = []) :
    processDocuments filename documents = Response.noneResponse := by
  induction documents with
  | nil => rfl
  | cons r rest ih =>
    have hr : r.fields = [] := h r (List.mem_cons_self r rest)
    simp only [processDocuments, hr, if_pos]
    exact ih fun q hq => h q (List.mem_cons_of_mem r hq)

/-- Reduction of `processReceipt` on crash-free paths. -/
theorem processReceipt_eq (filename : String) (receipt : Receipt) (cv : Option String)
    (td : List TaxEntry) (tip : Option ℚ) (tc : ℚ)
    (htax : _format_tax_details receipt (country_value0 receipt) = Except.ok (some (cv, td)))
    (htip : tipAmount receipt = Except.ok tip)
    (htc : total_confidence receipt = some tc) :
    processReceipt filename receipt =
      (if validationErrors (compute_average_confidence receipt) (total_amount receipt) tc
            (date_value receipt) (date_confidence receipt) = []
       then Response.jsonOutput (buildOutput filename receipt cv td tip)
       else Response.httpError 400
         (Detail.validation ("Validation failed for receipt " ++ filename ++ ".")
           (validationErrors (compute_average_confidence receipt) (total_amount receipt) tc
             (date_value receipt) (date_confidence receipt))
           (buildOutput filename receipt cv td tip))) := by
  simp [processReceipt, htax, htip, htc]

/-- On crash-free paths the response always carries the built output. -/
theorem responseOutput_processReceipt (filename : String) (receipt : Receipt) (cv : Option String)
    (td : List TaxEntry) (tip : Option ℚ) (tc : ℚ)
    (htax : _format_tax_details receipt (country_value0 receipt) = Except.ok (some (cv, td)))
    (htip : tipAmount receipt = Except.ok tip)
    (htc : total_confidence receipt = some tc) :
    responseOutput (processReceipt filename receipt)
      = some (buildOutput filename receipt cv td tip) := by
  rw [processReceipt_eq filename receipt cv td tip tc htax htip htc]
  split_ifs <;> rfl

/-- When the average confidence is below threshold and the total confidence
is not, the low-average error survives into the final error list. -/
theorem validationErrors_mem_lowAvg (avg : ℚ) (ta : Option ℚ) (tc : ℚ) (dv : Option Date)
    (dc : Option ℚ) (havg : avg < CONFIDENCE_THRESHOLD) (htc : ¬ tc < CONFIDENCE_THRESHOLD) :
    lowAvgConfidenceError ∈ validationErrors avg ta tc dv dc
      ∧ validationErrors avg ta tc dv dc ≠ [] := by
  unfold validationErrors
  simp only [if_pos havg, if_neg htc]
  rcases dc with _ | q <;> dsimp only <;> split_ifs <;> simp

/-- When the total confidence is below threshold, line 233 reassigns the
error list: the final list starts with exactly the low-brutto error and
only the date errors of lines 236-240 can follow. -/
theorem validationErrors_reset (avg : ℚ) (ta : Option ℚ) (tc : ℚ) (dv : Option Date)
    (dc : Option ℚ) (h : tc < CONFIDENCE_THRESHOLD) :
    ∃ dateErrs, validationErrors avg ta tc dv dc = lowBruttoConfidenceError avg :: dateErrs
      ∧ ∀ e ∈ dateErrs, e.code = "ERR_no_date" ∨ e.code = "ERR_low_date_confidence" := by
  unfold validationErrors
  simp only [if_pos h]
  rcases dc with _ | q <;> dsimp only <;> split_ifs
  · exact ⟨[noDateError], by simp, by
      intro e he; simp at he; simp [he, noDateError]⟩
  · exact ⟨[], by simp, by intro e he; simp at he⟩
  · exact ⟨[noDateError, lowDateConfidenceError q], by simp, by
      intro e he; simp at he
      rcases he with rfl | rfl <;> simp [noDateError, lowDateConfidenceError]⟩
  · exact ⟨[lowDateConfidenceError q], by simp, by
      intro e he; simp at he; simp [he, lowDateConfidenceError]⟩
  · exact ⟨[noDateError], by simp, by
      intro e he; simp at he; simp [he, noDateError]⟩
  · exact ⟨[], by simp, by intro e he; simp at he⟩

/-- The date fallback of lines 191-198 fires exactly as coded. -/
theorem dateWarningsAndValue_fallback (receipt : Receipt) (dep : DocumentField) (dv : Date)
    (h0 : (dictGet receipt.fields "TransactionDate").bind DocumentField.value_date = none)
    (h1 : dictGet receipt.fields "DepartureDate" = some dep)
    (h2 : dep.value_date = some dv) :
    dateWarningsAndValue receipt = ([warnDateItem], some dv) := by
  simp [dateWarningsAndValue, h0, h1, h2]

/-- With a TransactionDate value present, no warning is recorded. -/
theorem dateWarningsAndValue_withDate (receipt : Receipt) (d : Date)
    (h : (dictGet receipt.fields "TransactionDate").bind DocumentField.value_date = some d) :
    dateWarningsAndValue receipt = ([], some d) := by
  simp [dateWarningsAndValue, h]

/-- Banker's rounding of a nonnegative rational is nonnegative. -/
theorem roundHalfEven_nonneg (x : ℚ) (h : 0 ≤ x) : 0 ≤ roundHalfEven x := by
  have hf : (0 : ℤ) ≤ ⌊x⌋ := Int.floor_nonneg.mpr h
  simp only [roundHalfEven]
  split_ifs <;> omega

/-- Banker's rounding never exceeds an integer upper bound. -/
theorem roundHalfEven_le (x : ℚ) (b : ℤ) (h : x ≤ (b : ℚ)) : roundHalfEven x ≤ b := by
  have hf : ⌊x⌋ ≤ b := by
    have h2 := Int.floor_le_floor h
    rwa [Int.floor_intCast] at h2
  have hstep : ((1 : ℚ)/2 ≤ x - (⌊x⌋ : ℚ)) → ⌊x⌋ + 1 ≤ b := by
    intro hr
    rcases lt_or_eq_of_le hf with hl | he
    · omega
    · exfalso
      have hx0 : x - (⌊x⌋ : ℚ) ≤ 0 := by
        have : x ≤ (⌊x⌋ : ℚ) := by rw [he]; exact h
        linarith
      linarith
  simp only [roundHalfEven]
  split_ifs with h1 h2 h3
  · exact hf
  · exact hstep (le_of_lt h2)
  · exact hf
  · exact hstep (le_of_not_lt h1)

/-- `pyRound` keeps nonnegativity. -/
theorem pyRound_nonneg (x : ℚ) (n : ℕ) (h : 0 ≤ x) : 0 ≤ pyRound x n := by
  unfold pyRound
  have h1 : (0 : ℤ) ≤ roundHalfEven (x * 10 ^ n) :=
    roundHalfEven_nonneg _ (mul_nonneg h (by positivity))
  have h2 : (0 : ℚ) ≤ (roundHalfEven (x * 10 ^ n) : ℚ) := Int.cast_nonneg.mpr h1
  positivity

/-- `pyRound` keeps the upper bound 1. -/
theorem pyRound_le_one (x : ℚ) (n : ℕ) (h : x ≤ 1) : pyRound x n ≤ 1 := by
  unfold pyRound
  have h1 : roundHalfEven (x * 10 ^ n) ≤ ((10 : ℤ) ^ n) := by
    apply roundHalfEven_le
    push_cast
    calc x * 10 ^ n ≤ 1 * 10 ^ n := by
          apply mul_le_mul_of_nonneg_right h (by positivity)
      _ = 10 ^ n := one_mul _
  rw [div_le_one (by positivity)]
  calc (roundHalfEven (x * 10 ^ n) : ℚ) ≤ ((10 : ℤ) ^ n : ℤ) := by exact_mod_cast h1
    _ = 10 ^ n := by push_cast; ring

/-! Claim theorems. -/

/-- C3 (code_bug, divergence evaluation): on a receipt whose only tax
detail has the fractional German standard rate 0.19 and country code "DE",
`_format_tax_details` returns country "AT", because line 66 compares the
loop variable `rate` — already multiplied by 100 on line 54 — against the
fractional constants `(0.19, 0.07)`.  The claim (and the evident intent of
those constants) says such a receipt keeps country "DE". -/
theorem c3_rate_unit_divergence :
    rateOf rC3TaxObj = some (0.19 : ℚ)
    ∧ _format_tax_details rC3 (some "DE")
        = Except.ok (some (some "AT",
            [{ Rate := 19, Netto := some 100, TaxAmount := some 19, Brutto := some 119 }])) := by
  refine ⟨?_, ?_⟩ <;> with_unfolding_all rfl

/-- C4 (confirmed): for a processed tax detail with fractional rate `r`,
the reported `Rate` is `r * 100`; when the API reports no tax amount it is
recomputed as `Netto * r`; when net and tax amounts are both present the
`Brutto` is `round(Netto + TaxAmount, 2)`; and without a rate the entry
reports `Rate = 0` and `Brutto = Netto`. -/
theorem c4_tax_entry_conversions (tax_obj : List (String × InnerField)) :
    (∀ r, rateOf tax_obj = some r →
      (processTaxObject tax_obj).Rate = r * 100
      ∧ (apiTaxAmountOf tax_obj = none →
          (processTaxObject tax_obj).TaxAmount = (netAmountOf tax_obj).map (fun n => n * r))
      ∧ ∀ n t, (processTaxObject tax_obj).Netto = some n →
          (processTaxObject tax_obj).TaxAmount = some t →
          (processTaxObject tax_obj).Brutto = some (pyRound (n + t) 2))
    ∧ (rateOf tax_obj = none →
      (processTaxObject tax_obj).Rate = 0
      ∧ (processTaxObject tax_obj).Brutto = (processTaxObject tax_obj).Netto) := by
  constructor
  · intro r hr
    refine ⟨?_, ?_, ?_⟩
    · simp [processTaxObject, hr]
    · intro happ
      rcases hnet : netAmountOf tax_obj with _ | n <;>
        simp [processTaxObject, hr, happ, hnet]
    · intro n t hn ht
      rcases happ : apiTaxAmountOf tax_obj with _ | t0 <;>
        rcases hnet : netAmountOf tax_obj with _ | n0 <;>
        simp only [processTaxObject, hr, happ, hnet] at hn ht ⊢ <;>
        simp_all
  · intro hr
    simp [processTaxObject, hr]

/-- C4 witness: the conversions evaluated on one tax detail with rate 0.2,
net 10 and no API tax amount, and one without a rate. -/
theorem c4_tax_entry_conversions_witness :
    ((processTaxObject objRate).Rate = (0.2 : ℚ) * 100
      ∧ (processTaxObject objRate).TaxAmount = (netAmountOf objRate).map (fun n => n * (0.2 : ℚ))
      ∧ (processTaxObject objRate).Brutto = some (pyRound ((10 : ℚ) + 2) 2))
    ∧ ((processTaxObject objNoRate).Rate = 0
      ∧ (processTaxObject objNoRate).Brutto = (processTaxObject objNoRate).Netto) := by
  have h1 := (c4_tax_entry_conversions objRate).1 0.2 (by with_unfolding_all rfl)
  have h2 := (c4_tax_entry_conversions objNoRate).2 (by with_unfolding_all rfl)
  exact ⟨⟨h1.1, h1.2.1 (by with_unfolding_all rfl),
    h1.2.2 10 2 (by with_unfolding_all rfl) (by with_unfolding_all rfl)⟩, h2⟩

/-- C5 (code_bug, divergence evaluation): a receipt with a TaxDetails
field but no Total field has `total_amount = None`; instead of the claimed
400 response carrying `ERR_no_brutto`, line 232 compares
`None < CONFIDENCE_THRESHOLD` and the endpoint dies with an unhandled
`TypeError` (HTTP 500). -/
theorem c5_no_total_crash :
    total_amount rC5 = none
    ∧ rC5.fields ≠ []
    ∧ process_image pngUpload [rC5] = Response.pythonCrash PyError.typeError := by
  refine ⟨by with_unfolding_all rfl, by simp [rC5], by with_unfolding_all rfl⟩

/-- C6 (code_bug, divergence evaluation): a receipt with a non-empty
fields dict but no TaxDetails field makes `_format_tax_details` return
`None`, and the tuple unpacking on line 203 raises an unhandled
`TypeError` — contradicting the claim that `process_image` always returns
a JSON response or raises an `HTTPException`. -/
theorem c6_missing_tax_details_crash :
    safe_get rC6 "TaxDetails" = none
    ∧ rC6.fields ≠ []
    ∧ process_image pngUpload [rC6] = Response.pythonCrash PyError.typeError := by
  refine ⟨by with_unfolding_all rfl, by simp [rC6], by with_unfolding_all rfl⟩

/-- C7 (confirmed): an upload whose content type starts with neither
"image/" nor "application/pdf" is rejected with 400 / ERR_invalid_type
whatever the analysis would return (so before any analysis), and an image
upload that PIL cannot load is rejected with 400 / ERR_invalid_image. -/
theorem c7_upload_validation (image_file : UploadFileModel) (documents : List Receipt) :
    (image_file.content_type.startsWith "image/" = false →
      image_file.content_type.startsWith "application/pdf" = false →
      process_image image_file documents
        = Response.httpError 400
            (Detail.simple "ERR_invalid_type" "Invalid file type. Please upload an image."))
    ∧ (∀ e, image_file.content_type.startsWith "image/" = true →
        image_file.load_error = some e →
        process_image image_file documents
          = Response.httpError 400
              (Detail.simple "ERR_invalid_image" ("Invalid image: " ++ e))) := by
  constructor
  · intro h1 h2
    simp [process_image, h1, h2]
  · intro e h1 h2
    simp [process_image, h1, h2]

/-- C7 witness: a text upload is rejected as ERR_invalid_type and a broken
PNG as ERR_invalid_image, for an empty analysis. -/
theorem c7_upload_validation_witness :
    process_image textUpload []
      = Response.httpError 400
          (Detail.simple "ERR_invalid_type" "Invalid file type. Please upload an image.")
    ∧ process_image badPngUpload []
      = Response.httpError 400
          (Detail.simple "ERR_invalid_image" ("Invalid image: " ++ "cannot identify image file")) :=
  ⟨(c7_upload_validation textUpload []).1 (by with_unfolding_all rfl) (by with_unfolding_all rfl),
   (c7_upload_validation badPngUpload []).2 "cannot identify image file"
     (by with_unfolding_all rfl) rfl⟩

/-- C1 counterexample: `rC1x` has a non-empty fields dict and average
confidence 0.2 < 0.5, yet because its Total confidence 0.3 is also below
threshold, line 233 reassigns the error list and the 400 response carries
no ERR_low_avg_confidence error — refuting the claim as stated. -/
theorem c1_low_avg_counterexample :
    compute_average_confidence rC1x < CONFIDENCE_THRESHOLD
    ∧ rC1x.fields ≠ []
    ∧ isHttp400 (process_image pngUpload [rC1x]) = true
    ∧ validationErrorCodes (process_image pngUpload [rC1x])
        = ["ERR_low_brutto_confidence", "ERR_no_date"]
    ∧ "ERR_low_avg_confidence" ∉ validationErrorCodes (process_image pngUpload [rC1x]) := by
  refine ⟨by with_unfolding_all decide, by simp [rC1x], by with_unfolding_all rfl,
    by with_unfolding_all rfl, by with_unfolding_all decide⟩

/-- C1 (corrected): for a valid image upload whose first analyzed receipt
has a non-empty fields dict and a computed average confidence below 0.5,
provided the receipt's TaxDetails formatting succeeds, the Tip lookup does
not crash, and the Total confidence is present and at least 0.5,
`process_image` raises an `HTTPException` with status 400 whose detail
contains the ERR_low_avg_confidence validation error. -/
theorem c1_low_avg_confidence_400 (image_file : UploadFileModel) (receipt : Receipt)
    (rest : List Receipt)
    (h_img : image_file.content_type.startsWith "image/" = true)
    (h_load : image_file.load_error = none)
    (h_fields : receipt.fields ≠ [])
    (h_avg : compute_average_confidence receipt < CONFIDENCE_THRESHOLD)
    (h_tax : ∃ p, _format_tax_details receipt (country_value0 receipt) = Except.ok (some p))
    (h_tip : ∃ t, tipAmount receipt = Except.ok t)
    (h_tc : ∃ tc, total_confidence receipt = some tc ∧ CONFIDENCE_THRESHOLD ≤ tc) :
    ∃ msg errs out,
      process_image image_file (receipt :: rest)
        = Response.httpError 400 (Detail.validation msg errs out)
      ∧ lowAvgConfidenceError ∈ errs := by
  obtain ⟨⟨cv, td⟩, htax⟩ := h_tax
  obtain ⟨tip, htip⟩ := h_tip
  obtain ⟨tc, htc, hge⟩ := h_tc
  rw [process_image_image_ok image_file (receipt :: rest) h_img h_load]
  rw [processDocuments_cons image_file.filename receipt rest h_fields]
  rw [processReceipt_eq image_file.filename receipt cv td tip tc htax htip htc]
  obtain ⟨hmem, hne⟩ :=
    validationErrors_mem_lowAvg (compute_average_confidence receipt) (total_amount receipt)
      tc (date_value receipt) (date_confidence receipt) h_avg (not_lt.mpr hge)
  rw [if_neg hne]
  exact ⟨_, _, _, rfl, hmem⟩

/-- C1 witness: the amended statement evaluated on `rC1w` (average
confidence 0.325 < 0.5, Total confidence 0.6). -/
theorem c1_low_avg_confidence_400_witness :
    ∃ msg errs out,
      process_image pngUpload (rC1w :: [])
        = Response.httpError 400 (Detail.validation msg errs out)
      ∧ lowAvgConfidenceError ∈ errs :=
  c1_low_avg_confidence_400 pngUpload rC1w [] (by with_unfolding_all rfl) rfl
    (by simp [rC1w]) (by with_unfolding_all decide)
    ⟨(none, []), by with_unfolding_all rfl⟩
    ⟨none, by with_unfolding_all rfl⟩
    ⟨0.6, by with_unfolding_all rfl, by with_unfolding_all decide⟩

/-- C2 counterexample: `rC2x` has no TransactionDate but a DepartureDate
with a date value; because it has no TaxDetails field, line 203 raises an
unhandled `TypeError` before the output dictionary exists, so no output
with the substituted date (nor any `Warnings` key) is ever produced. -/
theorem c2_departure_date_counterexample :
    (dictGet rC2x.fields "TransactionDate").bind DocumentField.value_date = none
    ∧ (dictGet rC2x.fields "DepartureDate").bind DocumentField.value_date
        = some { year := 2024, month := 5, day := 17 }
    ∧ process_image pngUpload [rC2x] = Response.pythonCrash PyError.typeError
    ∧ responseOutput (process_image pngUpload [rC2x]) = none := by
  refine ⟨?_, ?_, ?_, ?_⟩ <;> with_unfolding_all rfl

/-- C2 (corrected): for a valid image upload whose first analyzed receipt
has a non-empty fields dict, provided the TaxDetails formatting succeeds,
the Tip lookup does not crash and the Total confidence is present (so that
processing produces an output at all): when TransactionDate yields no date
but a DepartureDate field with a date value exists, the produced output
(success payload or the 400 detail's partial output) has the formatted
DepartureDate as its Date and a Warnings list with the single WARN_Date
entry; when TransactionDate yields a date, the output has no Warnings key. -/
theorem c2_departure_date_fallback (image_file : UploadFileModel) (receipt : Receipt)
    (rest : List Receipt)
    (h_img : image_file.content_type.startsWith "image/" = true)
    (h_load : image_file.load_error = none)
    (h_fields : receipt.fields ≠ [])
    (h_tax : ∃ p, _format_tax_details receipt (country_value0 receipt) = Except.ok (some p))
    (h_tip : ∃ t, tipAmount receipt = Except.ok t)
    (h_tc : ∃ tc, total_confidence receipt = some tc) :
    ((dictGet receipt.fields "TransactionDate").bind DocumentField.value_date = none →
      ∀ dep dv, dictGet receipt.fields "DepartureDate" = some dep →
        dep.value_date = some dv →
        ∃ o, responseOutput (process_image image_file (receipt :: rest)) = some o
          ∧ o.Date = some (strftimeDate dv)
          ∧ o.Warnings = some [warnDateItem])
    ∧ (∀ d, (dictGet receipt.fields "TransactionDate").bind DocumentField.value_date = some d →
        ∃ o, responseOutput (process_image image_file (receipt :: rest)) = some o
          ∧ o.Warnings = none) := by
  obtain ⟨⟨cv, td⟩, htax⟩ := h_tax
  obtain ⟨tip, htip⟩ := h_tip
  obtain ⟨tc, htc⟩ := h_tc
  have hred : responseOutput (process_image image_file (receipt :: rest))
      = some (buildOutput image_file.filename receipt cv td tip) := by
    rw [process_image_image_ok image_file (receipt :: rest) h_img h_load]
    rw [processDocuments_cons image_file.filename receipt rest h_fields]
    exact responseOutput_processReceipt image_file.filename receipt cv td tip tc htax htip htc
  constructor
  · intro h0 dep dv h1 h2
    have hw : dateWarningsAndValue receipt = ([warnDateItem], some dv) :=
      dateWarningsAndValue_fallback receipt dep dv h0 h1 h2
    refine ⟨buildOutput image_file.filename receipt cv td tip, hred, ?_, ?_⟩
    · simp [buildOutput, date_value, hw]
    · simp [buildOutput, warningsOf, hw]
  · intro d h0
    have hw : dateWarningsAndValue receipt = ([], some d) :=
      dateWarningsAndValue_withDate receipt d h0
    refine ⟨buildOutput image_file.filename receipt cv td tip, hred, ?_⟩
    simp [buildOutput, warningsOf, hw]

/-- C2 witness: the fallback branch evaluated on `rC2w1` (DepartureDate
2024-05-17, no TransactionDate) and the no-warnings branch on `rC2w2`. -/
theorem c2_departure_date_fallback_witness :
    (∃ o, responseOutput (process_image pngUpload (rC2w1 :: [])) = some o
      ∧ o.Date = some (strftimeDate { year := 2024, month := 5, day := 17 })
      ∧ o.Warnings = some [warnDateItem])
    ∧ (∃ o, responseOutput (process_image pngUpload (rC2w2 :: [])) = some o
      ∧ o.Warnings = none) :=
  ⟨(c2_departure_date_fallback pngUpload rC2w1 [] (by with_unfolding_all rfl) rfl
      (by simp [rC2w1]) ⟨(none, []), by with_unfolding_all rfl⟩
      ⟨none, by with_unfolding_all rfl⟩ ⟨0.9, by with_unfolding_all rfl⟩).1
    (by with_unfolding_all rfl)
    { value_date := some { year := 2024, month := 5, day := 17 } }
    { year := 2024, month := 5, day := 17 }
    (by with_unfolding_all rfl) rfl,
   (c2_departure_date_fallback pngUpload rC2w2 [] (by with_unfolding_all rfl) rfl
      (by simp [rC2w2]) ⟨(none, []), by with_unfolding_all rfl⟩
      ⟨none, by with_unfolding_all rfl⟩ ⟨0.9, by with_unfolding_all rfl⟩).2
    { year := 2024, month := 5, day := 17 } (by with_unfolding_all rfl)⟩

/-- C8 (confirmed): `compute_average_confidence` returns 0 for an empty
fields dict or when no field carries a confidence; otherwise it returns
the 4-decimal banker's rounding of the mean of the non-`None` confidences,
which stays in `[0, 1]` whenever every such confidence does. -/
theorem c8_average_confidence (receipt : Receipt) :
    (receipt.fields = [] → compute_average_confidence receipt = 0)
    ∧ (receipt.fields.filterMap (fun p => p.2.confidence) = [] →
        compute_average_confidence receipt = 0)
    ∧ (receipt.fields.filterMap (fun p => p.2.confidence) ≠ [] →
        compute_average_confidence receipt
          = pyRound ((receipt.fields.filterMap (fun p => p.2.confidence)).sum
              / ((receipt.fields.filterMap (fun p => p.2.confidence)).length : ℚ)) 4
        ∧ ((∀ c ∈ receipt.fields.filterMap (fun p => p.2.confidence), 0 ≤ c ∧ c ≤ 1) →
            0 ≤ compute_average_confidence receipt
            ∧ compute_average_confidence receipt ≤ 1)) := by
  refine ⟨?_, ?_, ?_⟩
  · intro h
    simp [compute_average_confidence, h]
  · intro h
    unfold compute_average_confidence
    rcases eq_or_ne receipt.fields [] with hf | hf
    · simp [hf]
    · rw [if_neg hf, if_pos h]
  · intro hne
    have hfields : receipt.fields ≠ [] := by
      intro h
      exact hne (by simp [h])
    have heq : compute_average_confidence receipt
        = pyRound ((receipt.fields.filterMap (fun p => p.2.confidence)).sum
            / ((receipt.fields.filterMap (fun p => p.2.confidence)).length : ℚ)) 4 := by
      unfold compute_average_confidence
      rw [if_neg hfields, if_neg hne]
    refine ⟨heq, ?_⟩
    intro hbounds
    have hlenpos : (0 : ℚ) < ((receipt.fields.filterMap (fun p => p.2.confidence)).length : ℚ) := by
      have := List.length_pos.mpr hne
      exact_mod_cast this
    have hsum0 : (0 : ℚ) ≤ (receipt.fields.filterMap (fun p => p.2.confidence)).sum :=
      List.sum_nonneg fun c hc => (hbounds c hc).1
    have hsumle : (receipt.fields.filterMap (fun p => p.2.confidence)).sum
        ≤ ((receipt.fields.filterMap (fun p => p.2.confidence)).length : ℚ) := by
      have h1 := List.sum_le_card_nsmul (receipt.fields.filterMap (fun p => p.2.confidence))
        1 (fun c hc => (hbounds c hc).2)
      simpa using h1
    have hmean0 : (0 : ℚ) ≤ (receipt.fields.filterMap (fun p => p.2.confidence)).sum
        / ((receipt.fields.filterMap (fun p => p.2.confidence)).length : ℚ) :=
      div_nonneg hsum0 (le_of_lt hlenpos)
    have hmean1 : (receipt.fields.filterMap (fun p => p.2.confidence)).sum
        / ((receipt.fields.filterMap (fun p => p.2.confidence)).length : ℚ) ≤ 1 :=
      (div_le_one hlenpos).mpr hsumle
    rw [heq]
    exact ⟨pyRound_nonneg _ 4 hmean0, pyRound_le_one _ 4 hmean1⟩

/-- C8 witness: the three cases evaluated on an empty receipt, a receipt
whose field has no confidence, and one with a single confidence 0.5. -/
theorem c8_average_confidence_witness :
    compute_average_confidence emptyFieldsReceipt = 0
    ∧ compute_average_confidence rC8b = 0
    ∧ (compute_average_confidence rC8c
        = pyRound ((rC8c.fields.filterMap (fun p => p.2.confidence)).sum
            / ((rC8c.fields.filterMap (fun p => p.2.confidence)).length : ℚ)) 4
      ∧ 0 ≤ compute_average_confidence rC8c ∧ compute_average_confidence rC8c ≤ 1) := by
  have h3 := (c8_average_confidence rC8c).2.2 (by with_unfolding_all decide)
  refine ⟨(c8_average_confidence emptyFieldsReceipt).1 rfl,
    (c8_average_confidence rC8b).2.1 (by with_unfolding_all rfl),
    h3.1, h3.2 ?_⟩
  intro c hc
  have hl : rC8c.fields.filterMap (fun p => p.2.confidence) = [(0.5 : ℚ)] := by
    with_unfolding_all rfl
  rw [hl] at hc
  simp at hc
  rw [hc]
  constructor <;> norm_num

/-- C9 (confirmed): whenever the Total confidence is present and below
0.5 and the receipt's processing reaches the 400 response (TaxDetails
formatting and the Tip lookup do not crash), the validation errors list is
reset at line 233: the response carries exactly the low-brutto error first,
followed only by date errors, with any earlier ERR_low_avg_confidence and
ERR_no_brutto discarded. -/
theorem c9_error_list_reset (image_file : UploadFileModel) (receipt : Receipt)
    (rest : List Receipt)
    (h_img : image_file.content_type.startsWith "image/" = true)
    (h_load : image_file.load_error = none)
    (h_fields : receipt.fields ≠ [])
    (h_tax : ∃ p, _format_tax_details receipt (country_value0 receipt) = Except.ok (some p))
    (h_tip : ∃ t, tipAmount receipt = Except.ok t)
    (tc : ℚ) (h_tc : total_confidence receipt = some tc)
    (h_low : tc < CONFIDENCE_THRESHOLD) :
    ∃ dateErrs out,
      process_image image_file (receipt :: rest)
        = Response.httpError 400
            (Detail.validation ("Validation failed for receipt " ++ image_file.filename ++ ".")
              (lowBruttoConfidenceError (compute_average_confidence receipt) :: dateErrs) out)
      ∧ (∀ e ∈ dateErrs, e.code = "ERR_no_date" ∨ e.code = "ERR_low_date_confidence")
      ∧ lowAvgConfidenceError
          ∉ lowBruttoConfidenceError (compute_average_confidence receipt) :: dateErrs
      ∧ noBruttoError
          ∉ lowBruttoConfidenceError (compute_average_confidence receipt) :: dateErrs := by
  obtain ⟨⟨cv, td⟩, htax⟩ := h_tax
  obtain ⟨tip, htip⟩ := h_tip
  rw [process_image_image_ok image_file (receipt :: rest) h_img h_load]
  rw [processDocuments_cons image_file.filename receipt rest h_fields]
  rw [processReceipt_eq image_file.filename receipt cv td tip tc htax htip h_tc]
  obtain ⟨dateErrs, herrs, hcodes⟩ :=
    validationErrors_reset (compute_average_confidence receipt) (total_amount receipt)
      tc (date_value receipt) (date_confidence receipt) h_low
  rw [herrs]
  rw [if_neg (by simp)]
  refine ⟨dateErrs, buildOutput image_file.filename receipt cv td tip, rfl, hcodes, ?_, ?_⟩
  · intro hmem
    rcases List.mem_cons.mp hmem with hhead | htail
    · have : lowAvgConfidenceError.code
          = (lowBruttoConfidenceError (compute_average_confidence receipt)).code := by
        rw [hhead]
      revert this
      simp [lowAvgConfidenceError, lowBruttoConfidenceError]
    · rcases hcodes lowAvgConfidenceError htail with h | h <;>
        simp [lowAvgConfidenceError] at h
  · intro hmem
    rcases List.mem_cons.mp hmem with hhead | htail
    · have : noBruttoError.code
          = (lowBruttoConfidenceError (compute_average_confidence receipt)).code := by
        rw [hhead]
      revert this
      simp [noBruttoError, lowBruttoConfidenceError]
    · rcases hcodes noBruttoError htail with h | h <;>
        simp [noBruttoError] at h

/-- C9 witness: the reset evaluated on `rC9` (average confidence 0.6,
Total confidence 0.3). -/
theorem c9_error_list_reset_witness :
    ∃ dateErrs out,
      process_image pngUpload (rC9 :: [])
        = Response.httpError 400
            (Detail.validation ("Validation failed for receipt " ++ pngUpload.filename ++ ".")
              (lowBruttoConfidenceError (compute_average_confidence rC9) :: dateErrs) out)
      ∧ (∀ e ∈ dateErrs, e.code = "ERR_no_date" ∨ e.code = "ERR_low_date_confidence")
      ∧ lowAvgConfidenceError
          ∉ lowBruttoConfidenceError (compute_average_confidence rC9) :: dateErrs
      ∧ noBruttoError
          ∉ lowBruttoConfidenceError (compute_average_confidence rC9) :: dateErrs :=
  c9_error_list_reset pngUpload rC9 [] (by with_unfolding_all rfl) rfl (by simp [rC9])
    ⟨(none, []), by with_unfolding_all rfl⟩ ⟨none, by with_unfolding_all rfl⟩
    0.3 (by with_unfolding_all rfl) (by with_unfolding_all decide)

/-- C10 (confirmed): for a valid image upload, when the analysis has no
documents or every document has an empty fields dict, `process_image`
returns the implicit `None` (HTTP 200 with a null JSON body, no error);
and when the documents are a block of empty-fields receipts followed by a
first receipt with non-empty fields, the whole response is exactly that
receipt's processing — later documents never contribute. -/
theorem c10_first_nonempty_decides (image_file : UploadFileModel)
    (documents pre rest : List Receipt) (receipt : Receipt)
    (h_img : image_file.content_type.startsWith "image/" = true)
    (h_load : image_file.load_error = none) :
    ((∀ r ∈ documents, r.fields = []) →
      process_image image_file documents = Response.noneResponse)
    ∧ ((∀ p ∈ pre, p.fields = []) → receipt.fields ≠ [] →
      process_image image_file (pre ++ receipt :: rest)
        = processReceipt image_file.filename receipt) := by
  constructor
  · intro h
    rw [process_image_image_ok image_file documents h_img h_load]
    exact processDocuments_all_empty image_file.filename documents h
  · intro hpre hr
    rw [process_image_image_ok image_file (pre ++ receipt :: rest) h_img h_load]
    exact processDocuments_first image_file.filename pre receipt rest hpre hr

/-- C10 witness: a singleton list with an empty-fields receipt returns the
null response, and an empty-fields receipt followed by `rC10` yields
exactly `rC10`'s processing. -/
theorem c10_first_nonempty_decides_witness :
    process_image pngUpload [emptyFieldsReceipt] = Response.noneResponse
    ∧ process_image pngUpload ([emptyFieldsReceipt] ++ rC10 :: [])
        = processReceipt pngUpload.filename rC10 :=
  ⟨(c10_first_nonempty_decides pngUpload [emptyFieldsReceipt] [] [] rC10
      (by with_unfolding_all rfl) rfl).1
    (by intro r hr; simp at hr; simp [hr, emptyFieldsReceipt]),
   (c10_first_nonempty_decides pngUpload [] [emptyFieldsReceipt] [] rC10
      (by with_unfolding_all rfl) rfl).2
    (by intro p hp; simp at hp; simp [hp, emptyFieldsReceipt]) (by simp [rC10])⟩

end ReceiptOCR
